import Mathlib

/-!
Verification of the routing / credential-rotation / provider-adaptation /
stream-translation core of an OpenAI-compatible LLM proxy.

The Python sources are shallowly embedded: dictionaries become ordered
association lists (Python dicts preserve insertion order), dynamic values
become the `PyVal` inductive, fallible code returns `Except`, and the two
nondeterministic inputs (the process environment and the random key pick)
become explicit function / index parameters.
-/

namespace LLMProxy

/-- Dynamic Python values, restricted to the shapes the embedded modules use. -/
inductive PyVal where
  | str : String → PyVal
  | bool : Bool → PyVal
  | int : Int → PyVal
  | dict : List (String × PyVal) → PyVal
  | none_ : PyVal

/-- A Python dict with string keys, as an insertion-ordered association list. -/
abbrev PyDict := List (String × PyVal)

/-- First-match lookup: `d.get(k)` / `d[k]`. -/
def dictLookup (d : PyDict) (k : String) : Option PyVal :=
  match d with
  | [] => none
  | (k', v) :: rest => if k' = k then some v else dictLookup rest k

/-- Python `d.get(k, default)`. -/
def dictGetD (d : PyDict) (k : String) (v : PyVal) : PyVal :=
  (dictLookup d k).getD v

/-- Python `k in d`. -/
def dictHas (d : PyDict) (k : String) : Bool :=
  (dictLookup d k).isSome

/-- The keys of a dict, in order. -/
def dictKeys (d : PyDict) : List String :=
  d.map Prod.fst

/-- Python `d[k] = v`: update the first binding of `k` in place, else append. -/
def dictSet (d : PyDict) (k : String) (v : PyVal) : PyDict :=
  match d with
  | [] => [(k, v)]
  | (k', v') :: rest =>
      if k' = k then (k', v) :: rest else (k', v') :: dictSet rest k v

/-- Python `del d[k]`: drop every binding of `k` (a well-formed dict has at most one). -/
def dictDel (d : PyDict) (k : String) : PyDict :=
  match d with
  | [] => []
  | (k', v) :: rest =>
      if k' = k then dictDel rest k else (k', v) :: dictDel rest k

/-- The merge written in Python as a double-splat of `a` then `b`:
start from `a` and assign every binding of `b` in order, so `b` wins on
shared keys.  Also the semantics of `a.update(b)`. -/
def dictMerge (a b : PyDict) : PyDict :=
  b.foldl (fun d kv => dictSet d kv.1 kv.2) a

/-- Python truthiness of a value. -/
def pyTruthy : PyVal → Bool
  | .str s => !(s == "")
  | .bool b => b
  | .int n => !(n == 0)
  | .dict d => !d.isEmpty
  | .none_ => false

/-- Generic first-match association-list lookup (`d.get(k)` for maps whose
values are not `PyVal`). -/
def lookupA {α : Type} (d : List (String × α)) (k : String) : Option α :=
  match d with
  | [] => none
  | (k', v) :: rest => if k' = k then some v else lookupA rest k

/-- Python truthiness of `d.get(k)` when the value is a string:
`None` and the empty string are falsy. -/
def optStrTruthy : Option String → Bool
  | some s => !(s == "")
  | none => false

/-- One credential set: named secret fields, as configured (strings). -/
abbrev CredGroup := List (String × String)

/-- Per-provider credential key mapping block: `env_mapping` maps a local
field name to the backend parameter name; `defaults` are extra parameters. -/
structure KeyConfig where
  env_mapping : List (String × String) := []
  defaults : PyDict := []

/-- The merged external-LLM configuration dictionary, with the sections the
embedded modules read (each field is `config.get(section, default)`). -/
structure Config where
  provider_config : List (String × String) := []
  custom_model_routes : List (String × PyDict) := []
  model_routes : List (String × PyDict) := []
  provider_keys_configs : List (String × KeyConfig) := []
  model_keys : List (String × List (String × CredGroup)) := []

/-- The characters after the first `/`, if the list has one. -/
def afterSlashChars : List Char → Option (List Char)
  | [] => none
  | c :: rest => if c = '/' then some rest else afterSlashChars rest

/-- Python `"/" in s`. -/
def containsSlash (s : String) : Bool :=
  (afterSlashChars s.data).isSome

/-- Python `s.split("/", 1)[1]`: everything after the first slash
(only used under a `containsSlash` guard, as in the source). -/
def afterFirstSlash (s : String) : String :=
  match afterSlashChars s.data with
  | some cs => String.mk cs
  | none => ""

/-- Steps 2 and 3 of `get_provider_from_model`: try the part after the first
slash, else default to the sentinel provider name. -/
def provider_suffix_fallback (model_name : String) (cfg : Config) : String :=
  if containsSlash model_name then
    match lookupA cfg.provider_config (afterFirstSlash model_name) with
    | some p => if p = "" then "unknown" else p
    | none => "unknown"
  else "unknown"

/-- Embeds `router.get_provider_from_model`: direct match on the full model name,
then on the suffix after the first slash, else the sentinel `"unknown"`
(a falsy configured provider string is treated as absent, as in the
source's `if provider:`). -/
def get_provider_from_model (model_name : String) (cfg : Config) : String :=
  match lookupA cfg.provider_config model_name with
  | some p => if p = "" then provider_suffix_fallback model_name cfg else p
  | none => provider_suffix_fallback model_name cfg

/-- The standard-routes tail of `resolve_model`: look the model up in
`model_routes[provider]`, defaulting to the model name itself; when the
provider has no route table the model name is used directly. -/
def resolve_model_standard (provider model_name : String) (cfg : Config) :
    PyVal :=
  match lookupA cfg.model_routes provider with
  | some routes => (dictLookup routes model_name).getD (.str model_name)
  | none => .str model_name

/-- Embeds `router.resolve_model`: custom routes return the model name verbatim when
it is a key of the provider's custom table; otherwise standard routes apply. -/
def resolve_model (model_name : String) (cfg : Config) : PyVal :=
  let provider := get_provider_from_model model_name cfg
  match lookupA cfg.custom_model_routes provider with
  | some table =>
      if dictHas table model_name then .str model_name
      else resolve_model_standard provider model_name cfg
  | none => resolve_model_standard provider model_name cfg

/-- A small routing configuration with one configured model, used as the
concrete instance for the router claims. -/
def routerCfg : Config :=
  { provider_config := [("gpt-4o", "openai")],
    model_routes := [("openai", [("gpt-4o", .str "gpt-4o-2024")])] }

/-- C1 counterexample input: a model id with no exact or suffix entry. -/
def unroutedId : String := "mystery-model"

/-- The ProviderManager's per-provider rotation cursor dictionary
(`self._key_indices`), as a function from provider names to stored indices. -/
abbrev RotState := String → Option Nat

/-- The empty cursor dictionary a fresh ProviderManager starts with. -/
def freshRotState : RotState := fun _ => none

/-- Embeds `ProviderManager._get_next_key_index`: inside the manager's critical
section, initialise the provider's cursor to 0 if absent, return the current
cursor, and store `(current + 1) % total_keys`. -/
def get_next_key_index (st : RotState) (provider : String)
    (total_keys : Nat) : Nat × RotState :=
  let current := (st provider).getD 0
  (current,
    fun q => if q = provider then some ((current + 1) % total_keys) else st q)

/-- A window of consecutive selections for one provider: the indices
returned by iterating `get_next_key_index`, threading the cursor state. -/
def selection_window (provider : String) (total_keys : Nat) :
    RotState → Nat → List Nat
  | _, 0 => []
  | st, n + 1 =>
      (get_next_key_index st provider total_keys).1 ::
        selection_window provider total_keys
          (get_next_key_index st provider total_keys).2 n

/-- Python `s.startswith(p)`, on the underlying character lists. -/
def strStartsWith (s p : String) : Bool :=
  p.data.isPrefixOf s.data

/-- Embeds `BaseProvider._extract_keys`: the values of the provider's `model_keys`
entries whose key name starts with `"key"`. -/
def extract_keys (provider : String) (cfg : Config) : List CredGroup :=
  match lookupA cfg.model_keys provider with
  | some groups =>
      (groups.filter (fun kv => strStartsWith kv.1 "key")).map Prod.snd
  | none => []

/-- Embeds `BaseProvider._select_key`: `random.choice` over the extracted key
groups, with the random draw made explicit as an index argument (every
index below the list length is a possible draw); raises on an empty list. -/
def select_key (keys : List CredGroup) (draw : Nat) :
    Except String CredGroup :=
  match keys with
  | [] => .error "No API keys configured for provider"
  | k :: ks =>
      .ok ((k :: ks).get ⟨draw % (k :: ks).length, Nat.mod_lt _ (Nat.succ_pos _)⟩)

/-- A window of consecutive `_select_key` calls, one per random draw. -/
def select_key_window (keys : List CredGroup) (draws : List Nat) :
    List (Except String CredGroup) :=
  draws.map (select_key keys)

/-- Two distinguishable credential sets for the rotation claims. -/
def credSetA : CredGroup := [("api_key", "A")]

/-- Second credential set for the rotation claims. -/
def credSetB : CredGroup := [("api_key", "B")]

/-- Membership test for a generic association list (`k in d`). -/
def hasA {α : Type} (d : List (String × α)) (k : String) : Bool :=
  (lookupA d k).isSome

/-- Python `x == 0` on a dynamic value: true for the integer 0 and for
`False` (which Python considers equal to 0). -/
def pyEqZero : PyVal → Bool
  | .int n => n == 0
  | .bool b => !b
  | _ => false

/-- The field-mapping loop of `BaseProvider.get_credentials`: for each
`(env_var, litellm_param)` of `env_mapping`, if the selected key group has
`env_var`, bind `litellm_param` to the configured value verbatim (this path
performs no environment-variable resolution). -/
def map_env_fields (env_mapping : List (String × String))
    (key_group : CredGroup) : PyDict :=
  env_mapping.foldl (fun acc kv =>
    match lookupA key_group kv.1 with
    | some v => dictSet acc kv.2 (.str v)
    | none => acc) []

/-- The defaults loop shared by `BaseProvider.get_credentials` and
`ProviderManager._get_mapped_keys`: add each default only when the
parameter is not already mapped. -/
def add_defaults (creds : PyDict) (defaults : PyDict) : PyDict :=
  defaults.foldl
    (fun acc kv => if dictHas acc kv.1 then acc else dictSet acc kv.1 kv.2)
    creds

/-- Embeds `BaseProvider.get_credentials`, parameterized by the key group that
`_select_key` randomly drew: map configured fields verbatim, then apply the
provider defaults; raises when the provider has no key-mapping block. -/
def get_credentials (provider : String) (cfg : Config)
    (key_group : CredGroup) : Except String PyDict :=
  match lookupA cfg.provider_keys_configs provider with
  | some kc => .ok (add_defaults (map_env_fields kc.env_mapping key_group)
      kc.defaults)
  | none => .error "No key mapping configuration for provider"

/-- Embeds `GenericProvider.prepare_litellm_params`: a double-splat of the payload
then the credentials (`model_route` is ignored by the source). -/
def generic_prepare (payload credentials : PyDict) (model_route : PyVal) :
    PyDict :=
  dictMerge payload credentials

/-- The parameters `BedrockProvider` removes before calling the backend. -/
def bedrock_unsupported : List String :=
  ["top_k", "min_p", "repetition_penalty", "top_a",
   "frequency_penalty", "presence_penalty"]

/-- Embeds `BedrockProvider.prepare_litellm_params`: start from the credentials,
`update` with the caller payload (so the payload wins on shared keys), then
drop the unsupported parameters. -/
def bedrock_prepare (payload credentials : PyDict) (model_route : PyVal) :
    PyDict :=
  (dictMerge credentials payload).filter
    (fun kv => decide (kv.1 ∉ bedrock_unsupported))

/-- Embeds `GeminiProvider.prepare_litellm_params` (the adapter the factory
registers for provider name `"gemini"`): double-splat payload then
credentials, delete a `top_k` equal to 0, force the `thinking` flag.  The
`model_route` parameter is accepted but never read, so the
`vertex_location` override of the route metadata is not applied. -/
def gemini_prepare (payload credentials : PyDict) (model_route : PyVal) :
    PyDict :=
  let fp := dictMerge payload credentials
  let fp := if pyEqZero (dictGetD fp "top_k" .none_) then dictDel fp "top_k"
    else fp
  dictSet fp "thinking" (.dict [("type", .str "enabled")])

/-- The location-override step of `VertexAIProvider.prepare_litellm_params`:
when the resolved route is a dict carrying `vertex_location`, it replaces
the default location of the credentials. -/
def vertex_apply_location (credentials : PyDict) (model_route : PyVal) :
    PyDict :=
  match model_route with
  | .dict route =>
      if dictHas route "vertex_location" then
        dictSet credentials "vertex_location"
          (dictGetD route "vertex_location" .none_)
      else credentials
  | _ => credentials

/-- Embeds `VertexAIProvider.prepare_litellm_params` (not registered in the
factory): apply the route location override, attach the pre-loaded GCP
credential dict (raising when it is absent, falsy, or not a dict), merge
payload then credentials, drop `top_k = 0`, force `thinking`. -/
def vertex_prepare (payload credentials : PyDict) (model_route : PyVal)
    (vertex_ai_credential : Option PyVal) : Except String PyDict :=
  let creds := vertex_apply_location credentials model_route
  match vertex_ai_credential with
  | none => .error
      "Vertex AI credentials not found in the application configuration"
  | some v =>
      if pyTruthy v = false then
        .error
          "Vertex AI credentials not found in the application configuration"
      else
        match v with
        | .dict g =>
            let creds := dictSet creds "vertex_credentials" (.dict g)
            let fp := dictMerge payload creds
            let fp := if pyEqZero (dictGetD fp "top_k" .none_) then
                dictDel fp "top_k"
              else fp
            .ok (dictSet fp "thinking" (.dict [("type", .str "enabled")]))
        | _ => .error
            "Vertex AI credentials are not a valid dictionary/JSON object"

/-- The adapter families the factory can return. -/
inductive AdapterKind where
  | generic
  | bedrock
  | gemini
  | customRoute

/-- The failures adapter construction can raise: Python's `TypeError` for a
call whose argument count does not match the target signature, and
`ValueError` for the explicit raise in `CustomRouteProvider.__init__`. -/
inductive PyError where
  | typeErr : PyError
  | valueErr : String → PyError

/-- The number of positional parameters (after `self`) that
`BaseProvider.__init__` declares: `provider_name` and `config`. -/
def base_init_params : Nat := 2

/-- The number of positional arguments `ProviderManager.get_provider`
passes when instantiating a standard provider class: the name, the config,
and the manager itself. -/
def get_provider_args : Nat := 3

/-- Calling a standard provider class (which inherits the two-parameter
`BaseProvider.__init__`): Python raises `TypeError` unless the argument
count matches the signature. -/
def construct_standard_provider (kind : AdapterKind) (args : Nat) :
    Except PyError AdapterKind :=
  if args = base_init_params then .ok kind else .error .typeErr

/-- Embeds `CustomRouteProvider.__init__` (which accepts the manager argument):
raises `ValueError` when the provider's `custom_model_routes` block is
absent or falsy. -/
def construct_custom_route_provider (provider_name : String) (cfg : Config) :
    Except PyError AdapterKind :=
  match lookupA cfg.custom_model_routes provider_name with
  | some block =>
      if block.isEmpty then
        .error (.valueErr "No configuration found under custom_model_routes")
      else .ok .customRoute
  | none => .error (.valueErr "No configuration found under custom_model_routes")

/-- The factory's `_provider_map` of registered family strategies. -/
def provider_map : List (String × AdapterKind) :=
  [("bedrock", .bedrock), ("gemini", .gemini)]

/-- Embeds `ProviderManager.get_provider`: custom routes take priority; otherwise
the registered class (default `GenericProvider`) is called with three
arguments. -/
def get_provider (provider_name : String) (cfg : Config) :
    Except PyError AdapterKind :=
  if hasA cfg.custom_model_routes provider_name then
    construct_custom_route_provider provider_name cfg
  else
    construct_standard_provider
      ((lookupA provider_map provider_name).getD .generic) get_provider_args

/-- Python `str.isupper` (for the ASCII strings of this configuration):
at least one cased character, and no cased character is lowercase. -/
def pyIsUpper (s : String) : Bool :=
  s.data.any (fun c => c.isAlpha) && s.data.all (fun c => !(c.isLower))

/-- Python `"_" in s`. -/
def hasUnderscoreChar (s : String) : Bool :=
  s.data.any (fun c => c == '_')

/-- The process environment at selection time: variable name to value,
`none` when unset. -/
abbrev Env := String → Option String

/-- Embeds `ProviderManager._get_env_value`: a non-empty all-uppercase value with
an underscore is read from the environment at call time; a missing or
empty variable yields the empty string (with a logged warning, never an
exception); any other value is used verbatim. -/
def get_env_value (env : Env) (config_value : String) : String :=
  if (!(config_value == "")) && pyIsUpper config_value &&
      hasUnderscoreChar config_value then
    match env config_value with
    | some v => if v == "" then "" else v
    | none => ""
  else config_value

/-- The field-mapping loop of `ProviderManager._get_mapped_keys` (lines
after key selection): each configured field with a truthy value is passed
through `_get_env_value`; fields whose resolution comes back empty are
skipped with a warning, independently of the other fields. -/
def mapped_keys_fields (env : Env) (env_mapping : List (String × String))
    (provider_creds : CredGroup) : PyDict :=
  env_mapping.foldl (fun acc kv =>
    match lookupA provider_creds kv.1 with
    | some cv =>
        if cv == "" then acc
        else
          let actual := get_env_value env cv
          if actual == "" then acc else dictSet acc kv.2 (.str actual)
    | none => acc) []

/-- Embeds `ProviderManager._get_mapped_keys` after the rotation step,
parameterized by the selected key group: empty groups yield an empty map;
otherwise the fields are resolved through the environment and the provider
defaults fill the gaps. -/
def mapped_keys_from_group (env : Env) (kc : KeyConfig)
    (provider_creds : CredGroup) : PyDict :=
  if provider_creds.isEmpty then []
  else add_defaults (mapped_keys_fields env kc.env_mapping provider_creds)
    kc.defaults

/-- The frames of the stream translator: `data` and `error` carry the JSON
object serialized into a `data: ...` line, `done` is the terminal
`data: [DONE]` sentinel (a serialized JSON object never reads `[DONE]`, so
the three shapes are distinguishable on the wire). -/
inductive Frame where
  | data : PyDict → Frame
  | error : PyDict → Frame
  | done : Frame

/-- Recognizer for the sentinel frame. -/
def isDoneFrame : Frame → Bool
  | .done => true
  | _ => false

/-- Embeds `generate_stream` of `_handle_streaming_response`, over the upstream
event sequence: the chunk dicts the upstream yields before it either
completes (`none`) or raises (`some e`, covering mid-stream failure or a
cancellation surfaced by the pull).  The loop body re-frames each chunk
with the caller's model id; the except-branch yields exactly one error
frame; the finally-branch yields the sentinel. -/
def generate_stream (chunks : List PyDict) (upstream_err : Option String)
    (original_model : String) : List Frame :=
  (chunks.map
      (fun c => Frame.data (dictSet c "model" (.str original_model))))
    ++ (match upstream_err with
        | some e => [Frame.error
            [("error", .dict [("message", .str ("流处理错误: " ++ e)),
                              ("type", .str "STREAM_ERROR")])]]
        | none => [])
    ++ [Frame.done]

/-- Embeds `_convert_to_response_dict`: dump the backend response and overwrite its
`model` field with the caller-supplied identifier. -/
def convert_to_response_dict (litellm_response : PyDict)
    (original_model : String) : PyDict :=
  dictSet litellm_response "model" (.str original_model)

/-- Steps 3 of `_prepare_litellm_params`: the base payload handed to the
provider adapter: caller payload with the routed model id, a forced
`drop_params`, and `stream_options` injected for streaming requests that
did not already carry it. -/
def prepare_base_payload (payload : PyDict) (litellm_model : String) :
    PyDict :=
  let bp := dictSet payload "model" (.str litellm_model)
  let bp := dictSet bp "drop_params" (.bool true)
  if pyTruthy (dictGetD bp "stream" (.bool false)) &&
      !(dictHas bp "stream_options") then
    dictSet bp "stream_options" (.dict [("include_usage", .bool true)])
  else bp

/-- Whether `sub` occurs as a contiguous run of `l`. -/
def charsInfix (sub : List Char) : List Char → Bool
  | [] => sub.isEmpty
  | c :: rest => sub.isPrefixOf (c :: rest) || charsInfix sub rest

/-- Python `sub in s` (substring containment), on character lists. -/
def containsSubstr (s sub : String) : Bool :=
  charsInfix sub.data s.data

/-- The exception shapes distinguished by `map_litellm_error_to_http`.
`other` covers every exception of an unlisted type, carrying the runtime
class name (for the source's name-based matching) and `str(e)`. -/
inductive Exc where
  | valueError (msg : String)
  | badRequest (msg : String)
  | authenticationError (msg : String)
  | notFoundError (msg : String)
  | rateLimitError (msg : String)
  | contextWindowExceeded (msg : String)
  | apiConnectionError (msg : String)
  | apiTimeoutError (msg : String)
  | serviceUnavailable (msg : String)
  | internalServerError (msg : String)
  | apiError (msg : String)
  | proxyError (msg : String) (status : Nat) (code : Option String)
  | httpException (status : Nat) (detail : String)
  | requestValidationError (details_text : String)
  | other (className : String) (msg : String)

/-- Python `str(e)` for the embedded exception shapes. -/
def excMsg : Exc → String
  | .valueError m => m
  | .badRequest m => m
  | .authenticationError m => m
  | .notFoundError m => m
  | .rateLimitError m => m
  | .contextWindowExceeded m => m
  | .apiConnectionError m => m
  | .apiTimeoutError m => m
  | .serviceUnavailable m => m
  | .internalServerError m => m
  | .apiError m => m
  | .proxyError m _ _ => m
  | .httpException _ d => d
  | .requestValidationError d => d
  | .other _ m => m

/-- The class names the source's `error_type == "..."` fallbacks match. -/
def litellm_error_class_names : List String :=
  ["BadRequestError", "AuthenticationError", "NotFoundError",
   "RateLimitError", "ContextWindowExceededError", "APIConnectionError",
   "APITimeoutError", "ServiceUnavailableError", "InternalServerError",
   "APIError"]

/-- Embeds `errors.map_litellm_error_to_http`: the classifier chain, in source
order, ending in the generic fallback that embeds the exception's own
message after a fixed prefix. -/
def map_litellm_error_to_http (e : Exc) : Nat × String × String :=
  match e with
  | .valueError m =>
      if containsSubstr m "未在配置文件中定义" then
        (400, "MODEL_NOT_CONFIGURED", m)
      else if containsSubstr m "模型ID不能为空" then
        (400, "INVALID_MODEL_ID", m)
      else if containsSubstr m "无法从模型" && containsSubstr m "中解析提供商" then
        (400, "PROVIDER_PARSE_ERROR", m)
      else (500, "INTERNAL_ERROR", "内部服务器错误: " ++ m)
  | .badRequest m => (400, "BAD_REQUEST", "请求参数无效: " ++ m)
  | .authenticationError m =>
      (401, "AUTHENTICATION_ERROR", "API密钥认证失败: " ++ m)
  | .notFoundError m => (404, "NOT_FOUND", "资源未找到: " ++ m)
  | .rateLimitError m => (429, "RATE_LIMIT_EXCEEDED", "请求频率限制: " ++ m)
  | .contextWindowExceeded m =>
      (400, "CONTEXT_LENGTH_EXCEEDED", "上下文长度超出限制: " ++ m)
  | .apiConnectionError m =>
      (502, "UPSTREAM_CONNECTION_ERROR", "上游服务连接失败: " ++ m)
  | .apiTimeoutError m => (504, "UPSTREAM_TIMEOUT", "上游服务响应超时: " ++ m)
  | .serviceUnavailable m =>
      (503, "SERVICE_UNAVAILABLE", "服务暂时不可用: " ++ m)
  | .internalServerError m =>
      (500, "UPSTREAM_INTERNAL_ERROR", "上游服务内部错误: " ++ m)
  | .apiError m => (500, "API_ERROR", "API调用失败: " ++ m)
  | .proxyError m st code => (st, code.getD "PROXY_ERROR", m)
  | .httpException st d => (st, "HTTP_EXCEPTION", d)
  | .requestValidationError d =>
      (422, "VALIDATION_ERROR", "请求参数验证失败: " ++ d)
  | .other cls m =>
      if cls == "BadRequestError" then
        (400, "BAD_REQUEST", "请求参数无效: " ++ m)
      else if cls == "AuthenticationError" then
        (401, "AUTHENTICATION_ERROR", "API密钥认证失败: " ++ m)
      else if cls == "NotFoundError" then
        (404, "NOT_FOUND", "资源未找到: " ++ m)
      else if cls == "RateLimitError" then
        (429, "RATE_LIMIT_EXCEEDED", "请求频率限制: " ++ m)
      else if cls == "ContextWindowExceededError" then
        (400, "CONTEXT_LENGTH_EXCEEDED", "上下文长度超出限制: " ++ m)
      else if cls == "APIConnectionError" then
        (502, "UPSTREAM_CONNECTION_ERROR", "上游服务连接失败: " ++ m)
      else if cls == "APITimeoutError" then
        (504, "UPSTREAM_TIMEOUT", "上游服务响应超时: " ++ m)
      else if cls == "ServiceUnavailableError" then
        (503, "SERVICE_UNAVAILABLE", "服务暂时不可用: " ++ m)
      else if cls == "InternalServerError" then
        (500, "UPSTREAM_INTERNAL_ERROR", "上游服务内部错误: " ++ m)
      else if cls == "APIError" then
        (500, "API_ERROR", "API调用失败: " ++ m)
      else (500, "INTERNAL_ERROR", "内部服务器错误: " ++ m)

/-- The `ServiceError` the live service raises (`details` defaults to an
empty dict when not passed). -/
structure ServiceErrorS where
  message : String
  error_code : String
  details : PyVal := .dict []

/-- The catch-all of `handle_chat_completion`: every exception escaping the
handler body is re-raised as a `ServiceError` carrying `str(e)` verbatim. -/
def wrap_chat_completion_error (e : Exc) : ServiceErrorS :=
  ⟨excMsg e, "CHAT_COMPLETION_ERROR", .dict []⟩

/-- The registered `ServiceError` handler (`app.common.errors`): echo the
service error's message, code and details to the caller, with status 400
for validation codes and 500 otherwise. -/
def handle_service_error (se : ServiceErrorS) : Nat × PyDict :=
  (if strStartsWith se.error_code "VALIDATION" then 400 else 500,
   [("error", .dict [("message", .str se.message),
                     ("type", .str se.error_code),
                     ("details", se.details)])])

/-- Metadata route with a provider-specific location override (C7 input). -/
def locRoute : PyVal :=
  .dict [("model", .str "gemini-2.5-pro"),
         ("vertex_location", .str "europe-west4")]

/-- Credentials carrying the default region (C7 input). -/
def gemCreds : PyDict :=
  [("vertex_project", .str "proj-1"),
   ("vertex_location", .str "us-central1")]

/-- Factory configuration with one populated and one empty custom route
block (C6 input). -/
def factoryCfg : Config :=
  { custom_model_routes :=
      [("volc", [("api_key", .str "sk-123"),
                 ("base_url", .str "https://volc.example/v1")]),
       ("emptyprov", [])] }

/-- Caller payload that tries to override an injected secret (C5 input). -/
def cexPayload : PyDict :=
  [("api_key", .str "caller"), ("temperature", .int 1)]

/-- Injected credential map with the real secret (C5 input). -/
def cexCreds : PyDict := [("api_key", .str "secret")]

/-- Key-mapping configuration for the credential claims (C8 input). -/
def envCfg : Config :=
  { provider_keys_configs := [("volc", ⟨[("api_key", "api_key")], []⟩)] }

/-- An environment with no variables set. -/
def emptyEnv : Env := fun _ => none

/-- An upstream chunk reporting the backend's internal model id (C9 input). -/
def sampleChunk : PyDict :=
  [("id", .str "chatcmpl-1"), ("model", .str "openai/gpt-4o-2024")]

/-! ### Theorems -/

theorem dictLookup_dictSet_self (d : PyDict) (k : String) (v : PyVal) :
    dictLookup (dictSet d k v) k = some v := by
  induction d with
  | nil => simp [dictSet, dictLookup]
  | cons hd tl ih =>
      obtain ⟨k', v'⟩ := hd
      by_cases h : k' = k <;> simp [dictSet, dictLookup, h, ih]

theorem dictLookup_dictSet_ne (d : PyDict) (k k' : String) (v : PyVal)
    (h : k' ≠ k) : dictLookup (dictSet d k v) k' = dictLookup d k' := by
  induction d with
  | nil => simp [dictSet, dictLookup, Ne.symm h]
  | cons hd tl ih =>
      obtain ⟨k0, v0⟩ := hd
      by_cases h0 : k0 = k
      · simp [dictSet, dictLookup, h0, Ne.symm h]
      · by_cases h1 : k0 = k' <;> simp [dictSet, dictLookup, h0, h1, ih, h]

theorem dictLookup_eq_none_of_not_mem (d : PyDict) (k : String)
    (h : k ∉ dictKeys d) : dictLookup d k = none := by
  induction d with
  | nil => simp [dictLookup]
  | cons hd tl ih =>
      obtain ⟨k0, v0⟩ := hd
      simp only [dictKeys, List.map_cons, List.mem_cons] at h
      push_neg at h
      simp only [dictLookup]
      rw [if_neg (Ne.symm h.1)]
      exact ih h.2

theorem dictMerge_nil (a : PyDict) : dictMerge a [] = a := rfl

theorem dictMerge_cons (a : PyDict) (k : String) (v : PyVal) (tl : PyDict) :
    dictMerge a ((k, v) :: tl) = dictMerge (dictSet a k v) tl := rfl

theorem dictLookup_dictMerge_missing (a : PyDict) (b : PyDict) (k : String)
    (h : dictLookup b k = none) :
    dictLookup (dictMerge a b) k = dictLookup a k := by
  induction b generalizing a with
  | nil => simp [dictMerge]
  | cons hd tl ih =>
      obtain ⟨k0, v0⟩ := hd
      by_cases h0 : k0 = k
      · simp [dictLookup, h0] at h
      · have htl : dictLookup tl k = none := by
          simpa [dictLookup, h0] using h
        rw [dictMerge_cons, ih (dictSet a k0 v0) htl,
            dictLookup_dictSet_ne _ _ _ _ (Ne.symm h0)]

/-- On a duplicate-free right dict (every real Python dict is), the merge of
`a` then `b` answers lookups of keys bound in `b` from `b`. -/
theorem dictLookup_dictMerge_right (a : PyDict) (b : PyDict) (k : String)
    (hnd : (dictKeys b).Nodup) (h : dictHas b k = true) :
    dictLookup (dictMerge a b) k = dictLookup b k := by
  induction b generalizing a with
  | nil => simp [dictHas, dictLookup] at h
  | cons hd tl ih =>
      obtain ⟨k0, v0⟩ := hd
      simp only [dictKeys, List.map_cons, List.nodup_cons] at hnd
      by_cases h0 : k0 = k
      · have hnone : dictLookup tl k = none := by
          apply dictLookup_eq_none_of_not_mem
          rw [← h0]
          exact hnd.1
        rw [dictMerge_cons, dictLookup_dictMerge_missing _ _ _ hnone]
        rw [h0, dictLookup_dictSet_self]
        simp [dictLookup, h0]
      · have htl : dictHas tl k = true := by
          simpa [dictHas, dictLookup, h0] using h
        rw [dictMerge_cons, ih (dictSet a k0 v0) hnd.2 htl]
        simp [dictLookup, h0]

theorem dictLookup_dictDel_ne (d : PyDict) (k k' : String) (h : k' ≠ k) :
    dictLookup (dictDel d k) k' = dictLookup d k' := by
  induction d with
  | nil => simp [dictDel]
  | cons hd tl ih =>
      obtain ⟨k0, v0⟩ := hd
      by_cases h0 : k0 = k
      · simp [dictDel, dictLookup, h0, Ne.symm h, ih]
      · by_cases h1 : k0 = k' <;> simp [dictDel, dictLookup, h0, h1, ih, h]



/-- C1: the claim states that resolution of an unconfigured model id fails
with a `ModelNotConfigured` error and never produces the sentinel provider
`"unknown"` or the raw model id.  The live router does exactly the opposite
at this concrete input: it returns provider `"unknown"` and passes the raw
model id through. -/
theorem C1_counterexample :
    get_provider_from_model unroutedId routerCfg = "unknown" ∧
    resolve_model unroutedId routerCfg = PyVal.str unroutedId := by
  exact ⟨rfl, rfl⟩

/-- C1 (amended): for every model id with no truthy entry in the
model-to-provider map, neither exact nor as the suffix after the first `/`,
route resolution does not fail: it returns the sentinel provider
`"unknown"`, and (provided no provider is literally named `"unknown"` in
the standard route table) the raw model id as the backend model. -/
theorem C1_router_unknown_fallback (model_name : String) (cfg : Config)
    (h1 : optStrTruthy (lookupA cfg.provider_config model_name) = false)
    (h2 : optStrTruthy
      (lookupA cfg.provider_config (afterFirstSlash model_name)) = false)
    (h3 : lookupA cfg.model_routes "unknown" = none) :
    get_provider_from_model model_name cfg = "unknown" ∧
    resolve_model model_name cfg = PyVal.str model_name := by
  have hprov : get_provider_from_model model_name cfg = "unknown" := by
    unfold get_provider_from_model provider_suffix_fallback
    cases hx : lookupA cfg.provider_config model_name with
    | none =>
        cases hsl : containsSlash model_name with
        | false => simp [hsl]
        | true =>
            cases hy : lookupA cfg.provider_config (afterFirstSlash model_name) with
            | none => simp [hsl, hy]
            | some q =>
                rw [hy] at h2
                simp [optStrTruthy] at h2
                simp [hsl, hy, h2]
    | some p =>
        rw [hx] at h1
        simp [optStrTruthy] at h1
        cases hsl : containsSlash model_name with
        | false => simp [hsl, h1]
        | true =>
            cases hy : lookupA cfg.provider_config (afterFirstSlash model_name) with
            | none => simp [hsl, hy, h1]
            | some q =>
                rw [hy] at h2
                simp [optStrTruthy] at h2
                simp [hsl, hy, h1, h2]
  refine ⟨hprov, ?_⟩
  unfold resolve_model
  rw [hprov]
  have hstd : resolve_model_standard "unknown" model_name cfg
      = PyVal.str model_name := by
    unfold resolve_model_standard
    rw [h3]
  cases hc : lookupA cfg.custom_model_routes "unknown" with
  | none => simpa [hc] using hstd
  | some table =>
      by_cases hm : dictHas table model_name = true
      · simp [hc, hm]
      · simp [hc, hm, hstd]

/-- C1 witness: the amended theorem applied to a prefixed model id whose
suffix is also unconfigured. -/
theorem C1_witness :
    get_provider_from_model "acme/new-model" routerCfg = "unknown" ∧
    resolve_model "acme/new-model" routerCfg = PyVal.str "acme/new-model" :=
  C1_router_unknown_fallback "acme/new-model" routerCfg rfl rfl rfl

theorem mod_cases (x K : Nat) (hK : 0 < K) (hx : x < 2 * K) :
    x % K = if x < K then x else x - K := by
  by_cases h : x < K
  · rw [if_pos h, Nat.mod_eq_of_lt h]
  · have hlt : x - K < K := by omega
    rw [if_neg h, Nat.mod_eq_sub_mod (by omega), Nat.mod_eq_of_lt hlt]

theorem rot_d_step (K s i : Nat) (hK : 0 < K) (hs : s < K) (hi : i < K) :
    (s = i → (i + K - s) % K = 0 ∧ (i + K - (s + 1) % K) % K = K - 1) ∧
    (s ≠ i → 1 ≤ (i + K - s) % K ∧
      (i + K - (s + 1) % K) % K = (i + K - s) % K - 1) := by
  have hA := mod_cases (i + K - s) K hK (by omega)
  by_cases hs1 : s + 1 < K
  · rw [Nat.mod_eq_of_lt hs1]
    have hB := mod_cases (i + K - (s + 1)) K hK (by omega)
    split_ifs at hA hB <;>
      exact ⟨fun h => by rw [hA, hB]; omega, fun h => by rw [hA, hB]; omega⟩
  · have hsK : s + 1 = K := by omega
    have hz : (s + 1) % K = 0 := by rw [hsK, Nat.mod_self]
    rw [hz]
    have hB : (i + K - 0) % K = i := by
      have : i + K - 0 = i + K := by omega
      rw [this, Nat.add_mod_right, Nat.mod_eq_of_lt hi]
    rw [hB]
    split_ifs at hA <;>
      exact ⟨fun h => by rw [hA]; omega, fun h => by rw [hA]; omega⟩

theorem count_mod_window (K : Nat) (hK : 0 < K) (i : Nat) (hi : i < K) :
    ∀ (N s : Nat), s < K →
      ((List.range N).map (fun t => (s + t) % K)).count i
        = (N + (K - 1) - ((i + K - s) % K)) / K := by
  intro N
  induction N with
  | zero =>
      intro s hs
      have hd : (i + K - s) % K < K := Nat.mod_lt _ hK
      rw [List.range_zero, List.map_nil, List.count_nil,
          Nat.div_eq_of_lt (by omega)]
  | succ M ih =>
      intro s hs
      have hs' : (s + 1) % K < K := Nat.mod_lt _ hK
      have htail :
          (List.range M).map ((fun t => (s + t) % K) ∘ Nat.succ)
            = (List.range M).map (fun t => ((s + 1) % K + t) % K) := by
        apply List.map_congr_left
        intro t _
        simp only [Function.comp]
        rw [Nat.mod_add_mod]
        congr 1
        omega
      rw [List.range_succ_eq_map, List.map_cons, List.count_cons,
          List.map_map, htail, ih ((s + 1) % K) hs']
      have hkey := rot_d_step K s i hK hs hi
      have hhead : (s + 0) % K = s := by
        rw [Nat.add_zero, Nat.mod_eq_of_lt hs]
      by_cases hsi : s = i
      · have hk := hkey.1 hsi
        rw [hk.2, hk.1]
        have h1 : M + (K - 1) - (K - 1) = M := by omega
        have h2 : M + 1 + (K - 1) - 0 = M + K := by omega
        rw [h1, h2, Nat.add_div_right _ hK]
        simp [hhead, hsi, Nat.mod_eq_of_lt hi]
      · have hk := hkey.2 hsi
        rw [hk.2]
        have harg : M + (K - 1) - ((i + K - s) % K - 1)
            = M + 1 + (K - 1) - (i + K - s) % K := by
          have hd : (i + K - s) % K < K := Nat.mod_lt _ hK
          omega
        rw [harg]
        have hne : ¬ i = s := fun hh => hsi hh.symm
        simp [hne, Nat.mod_eq_of_lt hs]
        exact hsi

theorem div_floor_or_ceil (N K c : Nat) (hK : 0 < K) (hc : c ≤ K - 1) :
    (N + c) / K = N / K ∨ (N + c) / K = (N + K - 1) / K := by
  have h1 : N / K ≤ (N + c) / K := Nat.div_le_div_right (Nat.le_add_right _ _)
  have h2 : (N + c) / K ≤ (N + K - 1) / K := Nat.div_le_div_right (by omega)
  have h3 : (N + K - 1) / K ≤ N / K + 1 := by
    rcases N with _ | M
    · have hlt : K - 1 < K := by omega
      rw [Nat.zero_add, Nat.div_eq_of_lt hlt]
      exact Nat.zero_le _
    · have harg : M + 1 + K - 1 = M + K := by omega
      rw [harg, Nat.add_div_right _ hK]
      exact Nat.succ_le_succ (Nat.div_le_div_right (by omega))
  rcases Nat.eq_or_lt_of_le h1 with he | hlt
  · exact Or.inl he.symm
  · right
    have ha : (N + c) / K = N / K + 1 := Nat.le_antisymm (h2.trans h3) hlt
    have hb : N / K + 1 ≤ (N + K - 1) / K := ha ▸ h2
    exact ha.trans (Nat.le_antisymm h3 hb).symm

theorem selection_window_eq_map (provider : String) (K N : Nat) (hK : 0 < K) :
    ∀ (st : RotState) (s : Nat), (st provider).getD 0 = s → s < K →
      selection_window provider K st N
        = (List.range N).map (fun t => (s + t) % K) := by
  induction N with
  | zero => intro st s _ _; rfl
  | succ M ih =>
      intro st s hs hsK
      have hhead : (get_next_key_index st provider K).1 = s := by
        simp [get_next_key_index, hs]
      have hst' :
          (((get_next_key_index st provider K).2) provider).getD 0
            = (s + 1) % K := by
        simp [get_next_key_index, hs]
      have ih' := ih (get_next_key_index st provider K).2 ((s + 1) % K)
        hst' (Nat.mod_lt _ hK)
      show (get_next_key_index st provider K).1 ::
          selection_window provider K (get_next_key_index st provider K).2 M
        = _
      rw [hhead, ih', List.range_succ_eq_map, List.map_cons, List.map_map]
      have hzero : (s + 0) % K = s := by
        rw [Nat.add_zero, Nat.mod_eq_of_lt hsK]
      rw [hzero]
      congr 1
      apply List.map_congr_left
      intro t _
      simp only [Function.comp]
      rw [Nat.mod_add_mod]
      congr 1
      omega

/-- C2 (amended): the ProviderManager's round-robin index path is fair: for
a provider with `K ≥ 1` configured credential sets, over any window of `N`
consecutive selections (from any reachable cursor state), each index
`i < K` is returned either `floor(N/K)` or `ceil(N/K)` times, and for
`K = 1` every selection returns index 0, i.e. the single set.  (The
adapters' own `_select_key`, by contrast, draws uniformly at random; see
the counterexample.) -/
theorem C2_round_robin_fair (st : RotState) (provider : String)
    (K N i : Nat) (hK : 0 < K) (hi : i < K)
    (hst : (st provider).getD 0 < K) :
    ((selection_window provider K st N).count i = N / K ∨
      (selection_window provider K st N).count i = (N + K - 1) / K) ∧
    (K = 1 → selection_window provider K st N = List.replicate N 0) := by
  rw [selection_window_eq_map provider K N hK st ((st provider).getD 0)
    rfl hst]
  constructor
  · rw [count_mod_window K hK i hi N ((st provider).getD 0) hst]
    have hd : (i + K - (st provider).getD 0) % K < K := Nat.mod_lt _ hK
    have harg : N + (K - 1) - ((i + K - (st provider).getD 0) % K)
        = N + ((K - 1) - (i + K - (st provider).getD 0) % K) := by omega
    rw [harg]
    exact div_floor_or_ceil N K _ hK (by omega)
  · intro h1
    subst h1
    have hconst : (fun t => ((st provider).getD 0 + t) % 1) = fun _ => 0 :=
      funext fun t => Nat.mod_one _
    rw [hconst]
    simp [List.eq_replicate_iff, List.length_range]

/-- C2 witness: the fairness theorem applied to a fresh manager state with
`K = 2` credential sets over a window of `N = 5` selections. -/
theorem C2_witness :
    ((selection_window "acme" 2 freshRotState 5).count 0 = 5 / 2 ∨
      (selection_window "acme" 2 freshRotState 5).count 0 = (5 + 2 - 1) / 2) ∧
    ((2 : Nat) = 1 → selection_window "acme" 2 freshRotState 5
      = List.replicate 5 0) :=
  C2_round_robin_fair freshRotState "acme" 2 5 0 (by decide) (by decide)
    (by decide)

/-- C2 counterexample: the claim asserts the floor/ceil distribution for
every window of credential selections, but the selection the adapters
actually perform (`BaseProvider._select_key`) is `random.choice`, so the
two-selection window produced by the possible draws `[0, 0]` over `K = 2`
credential sets picks set A twice, while `floor(2/2) = ceil(2/2) = 1`. -/
theorem C2_counterexample :
    select_key_window [credSetA, credSetB] [0, 0]
      = [.ok credSetA, .ok credSetA] ∧
    (2 : Nat) / 2 = 1 ∧ ((2 : Nat) + 2 - 1) / 2 = 1 ∧ (2 : Nat) ≠ 1 :=
  ⟨rfl, rfl, rfl, by decide⟩

theorem dictLookup_filter_keep (d : PyDict) (bad : List String) (k : String)
    (h : k ∉ bad) :
    dictLookup (d.filter (fun kv => decide (kv.1 ∉ bad))) k
      = dictLookup d k := by
  induction d with
  | nil => simp [dictLookup]
  | cons hd tl ih =>
      obtain ⟨k0, v0⟩ := hd
      by_cases h0 : k0 = k
      · subst h0
        simp [List.filter_cons, h, dictLookup]
      · by_cases hb : k0 ∈ bad
        · simp [List.filter_cons, hb, dictLookup, h0]
          simpa using ih
        · simp [List.filter_cons, hb, dictLookup, h0]
          simpa using ih

/-- C5 (amended): for the Generic and Gemini adapters, the merged parameter
map answers every key bound in the credential/override map from the
credentials (away from the Gemini-specific `top_k` deletion and forced
`thinking` flag); for the Bedrock adapter the merge direction is reversed,
so the caller payload's value wins on shared keys. -/
theorem C5_merge_precedence (payload credentials : PyDict) (route : PyVal)
    (k : String)
    (hp : (dictKeys payload).Nodup) (hc : (dictKeys credentials).Nodup)
    (hck : dictHas credentials k = true) (hpk : dictHas payload k = true)
    (htk : k ≠ "top_k") (hth : k ≠ "thinking")
    (hkb : k ∉ bedrock_unsupported) :
    dictLookup (generic_prepare payload credentials route) k
      = dictLookup credentials k ∧
    dictLookup (gemini_prepare payload credentials route) k
      = dictLookup credentials k ∧
    dictLookup (bedrock_prepare payload credentials route) k
      = dictLookup payload k := by
  refine ⟨?_, ?_, ?_⟩
  · exact dictLookup_dictMerge_right payload credentials k hc hck
  · unfold gemini_prepare
    rw [dictLookup_dictSet_ne _ _ _ _ hth]
    by_cases hz : pyEqZero
        (dictGetD (dictMerge payload credentials) "top_k" .none_) = true
    · simp only [hz, if_true]
      rw [dictLookup_dictDel_ne _ _ _ htk]
      exact dictLookup_dictMerge_right payload credentials k hc hck
    · simp only [Bool.not_eq_true] at hz
      simp only [hz, Bool.false_eq_true, if_false]
      exact dictLookup_dictMerge_right payload credentials k hc hck
  · unfold bedrock_prepare
    rw [dictLookup_filter_keep _ _ _ hkb]
    exact dictLookup_dictMerge_right credentials payload k hp hpk

/-- C5 witness: the amended precedence theorem at a concrete payload that
tries to override `api_key`. -/
theorem C5_witness :
    dictLookup (generic_prepare cexPayload cexCreds PyVal.none_) "api_key"
      = dictLookup cexCreds "api_key" ∧
    dictLookup (gemini_prepare cexPayload cexCreds PyVal.none_) "api_key"
      = dictLookup cexCreds "api_key" ∧
    dictLookup (bedrock_prepare cexPayload cexCreds PyVal.none_) "api_key"
      = dictLookup cexPayload "api_key" :=
  C5_merge_precedence cexPayload cexCreds .none_ "api_key" (by decide)
    (by decide) rfl rfl (by decide) (by decide) (by decide)

/-- C5 counterexample: the claim asserts that every adapter resolves a key
present in both payload and credentials to the credential value, but the
Bedrock adapter updates the credentials with the payload, so the caller's
`api_key` survives and the configured secret is discarded. -/
theorem C5_counterexample :
    dictLookup (bedrock_prepare cexPayload cexCreds PyVal.none_) "api_key"
      = some (.str "caller") ∧
    dictLookup cexCreds "api_key" = some (.str "secret") :=
  ⟨rfl, rfl⟩

/-- C6: every standard (non-custom-route) adapter construction raises
`TypeError`, because `get_provider` passes three positional arguments while
`BaseProvider.__init__` declares two — contradicting the claim that
construction only fails for a custom route with an absent configuration
block. -/
theorem C6_standard_construction_fails (provider_name : String)
    (cfg : Config) (h : hasA cfg.custom_model_routes provider_name = false) :
    get_provider provider_name cfg = Except.error PyError.typeErr := by
  unfold get_provider
  rw [h]
  rfl

/-- C6 witness: the registered `gemini` family cannot be constructed. -/
theorem C6_witness :
    get_provider "gemini" factoryCfg = Except.error PyError.typeErr :=
  C6_standard_construction_fails "gemini" factoryCfg rfl

/-- C7: the factory registers `GeminiProvider` for the region-pinned
family, and that adapter ignores the resolved route's metadata: with a
route carrying `vertex_location = "europe-west4"` and credentials whose
default is `"us-central1"`, the prepared parameters keep the default.  The
override is only applied by `VertexAIProvider.prepare_litellm_params`,
which no factory entry ever returns. -/
theorem C7_location_override_ignored :
    lookupA provider_map "gemini" = some AdapterKind.gemini ∧
    dictLookup (gemini_prepare [("model", .str "gemini/gemini-2.5-pro")]
        gemCreds locRoute) "vertex_location" = some (.str "us-central1") ∧
    dictLookup (vertex_apply_location gemCreds locRoute) "vertex_location"
      = some (.str "europe-west4") :=
  ⟨rfl, rfl, rfl⟩

/-- C8 (amended): in the ProviderManager selection path, an all-uppercase
underscore-bearing field value is resolved against the environment at
selection time; a missing variable yields the empty value for that field
(which is then skipped with a warning, never an exception) while the other
fields of the same credential set are still resolved. -/
theorem C8_env_resolution (env : Env) (v w f g pf pg : String)
    (hup : pyIsUpper v = true) (hus : hasUnderscoreChar v = true)
    (hv : v ≠ "") (hmiss : env v = none)
    (hfg : f ≠ g) (hw : w ≠ "") (hwd : pyIsUpper w = false) :
    get_env_value env v = "" ∧
    mapped_keys_from_group env ⟨[(f, pf), (g, pg)], []⟩ [(f, v), (g, w)]
      = [(pg, .str w)] := by
  have hbv : (v == "") = false := beq_eq_false_iff_ne.mpr hv
  have hbw : (w == "") = false := beq_eq_false_iff_ne.mpr hw
  have h1 : get_env_value env v = "" := by
    simp [get_env_value, hbv, hup, hus, hmiss]
  have h2 : get_env_value env w = w := by
    simp [get_env_value, hwd]
  refine ⟨h1, ?_⟩
  unfold mapped_keys_from_group mapped_keys_fields add_defaults
  simp [lookupA, hbv, hbw, h1, h2, hfg, hw, dictSet]

/-- C8 witness: the resolution theorem at a concrete credential set whose
`api_key` names a missing environment variable while `base_url` is a
direct value. -/
theorem C8_witness :
    get_env_value emptyEnv "MISSING_API_KEY" = "" ∧
    mapped_keys_from_group emptyEnv
        ⟨[("api_key", "api_key"), ("base_url", "base_url")], []⟩
        [("api_key", "MISSING_API_KEY"), ("base_url", "https://x.example")]
      = [("base_url", .str "https://x.example")] :=
  C8_env_resolution emptyEnv "MISSING_API_KEY" "https://x.example"
    "api_key" "base_url" "api_key" "base_url" (by decide) (by decide)
    (by decide) rfl (by decide) (by decide) (by decide)

/-- C8 counterexample: the adapters' own credential path
(`BaseProvider.get_credentials`) performs no environment resolution: an
all-uppercase underscore-bearing configured value is mapped verbatim into
the credentials, instead of being resolved (and instead of the empty value
that resolution of the missing variable would give). -/
theorem C8_counterexample :
    get_credentials "volc" envCfg [("api_key", "VOLC_API_KEY")]
      = .ok [("api_key", .str "VOLC_API_KEY")] ∧
    pyIsUpper "VOLC_API_KEY" = true ∧
    hasUnderscoreChar "VOLC_API_KEY" = true ∧
    get_env_value emptyEnv "VOLC_API_KEY" = "" ∧
    "VOLC_API_KEY" ≠ "" := by
  refine ⟨rfl, by decide, by decide, rfl, by decide⟩

/-- C4: the stream translator emits the terminal sentinel exactly once and
as the very last frame, for every upstream behaviour: zero, one or many
chunks, and an upstream exception after any prefix of chunks (the
finally-clause emission; cancellation surfaced as an error from the pull is
the `some` case). -/
theorem C4_sentinel_exactly_once_last (chunks : List PyDict)
    (err : Option String) (model_name : String) :
    (generate_stream chunks err model_name).countP isDoneFrame = 1 ∧
    (generate_stream chunks err model_name).getLast? = some Frame.done := by
  constructor
  · unfold generate_stream
    rw [List.countP_append, List.countP_append]
    have hchunks : (chunks.map
        (fun c => Frame.data (dictSet c "model" (.str model_name)))).countP
          isDoneFrame = 0 := by
      rw [List.countP_eq_zero]
      intro f hf
      rcases List.mem_map.mp hf with ⟨c, _, rfl⟩
      simp [isDoneFrame]
    have herr : (match err with
        | some e => [Frame.error
            [("error", .dict [("message", .str ("流处理错误: " ++ e)),
                              ("type", .str "STREAM_ERROR")])]]
        | none => ([] : List Frame)).countP isDoneFrame = 0 := by
      cases err <;> simp [isDoneFrame]
    rw [hchunks, herr]
    rfl
  · unfold generate_stream
    rw [List.getLast?_append_of_ne_nil _ (by simp)]
    rfl

/-- C9: every data frame of the translated stream and the converted
non-streaming response carry the caller-supplied model id in their `model`
field, regardless of the model id the backend reported. -/
theorem C9_model_substitution (chunks : List PyDict) (err : Option String)
    (resp : PyDict) (original_model : String) :
    (∀ f ∈ generate_stream chunks err original_model, ∀ d,
        f = Frame.data d →
        dictLookup d "model" = some (.str original_model)) ∧
    dictLookup (convert_to_response_dict resp original_model) "model"
      = some (.str original_model) := by
  constructor
  · intro f hf d hfd
    unfold generate_stream at hf
    rcases List.mem_append.mp hf with hf1 | hf2
    · rcases List.mem_append.mp hf1 with hmap | herr
      · rcases List.mem_map.mp hmap with ⟨c, _, rfl⟩
        cases hfd
        exact dictLookup_dictSet_self c "model" (.str original_model)
      · cases err with
        | none => simp at herr
        | some e =>
            simp only [List.mem_singleton] at herr
            subst herr
            cases hfd
    · simp only [List.mem_singleton] at hf2
      subst hf2
      cases hfd
  · exact dictLookup_dictSet_self resp "model" (.str original_model)

/-- C9 witness: the substitution theorem at a concrete chunk whose backend
model id differs from the caller's. -/
theorem C9_witness :
    dictLookup (dictSet sampleChunk "model" (.str "gpt-4o")) "model"
      = some (.str "gpt-4o") := by
  refine (C9_model_substitution [sampleChunk] none [] "gpt-4o").1
    (Frame.data (dictSet sampleChunk "model" (.str "gpt-4o"))) ?_ _ rfl
  simp [generate_stream]

/-- C10: the base payload handed to the provider adapter always carries
`drop_params = true`, and for a streaming payload that did not already have
`stream_options` it also carries `stream_options = dict(include_usage =
true)`. -/
theorem C10_injected_params (payload : PyDict) (litellm_model : String) :
    dictLookup (prepare_base_payload payload litellm_model) "drop_params"
      = some (.bool true) ∧
    (pyTruthy (dictGetD payload "stream" (.bool false)) = true →
      dictHas payload "stream_options" = false →
      dictLookup (prepare_base_payload payload litellm_model)
        "stream_options" = some (.dict [("include_usage", .bool true)])) := by
  unfold prepare_base_payload
  set b2 := dictSet (dictSet payload "model" (.str litellm_model))
    "drop_params" (.bool true) with hb2
  have hdrop : dictLookup b2 "drop_params" = some (.bool true) := by
    rw [hb2]
    exact dictLookup_dictSet_self _ _ _
  have hstream_eq : dictLookup b2 "stream" = dictLookup payload "stream" := by
    rw [hb2, dictLookup_dictSet_ne _ _ _ _ (by decide),
        dictLookup_dictSet_ne _ _ _ _ (by decide)]
  have hso_eq : dictLookup b2 "stream_options"
      = dictLookup payload "stream_options" := by
    rw [hb2, dictLookup_dictSet_ne _ _ _ _ (by decide),
        dictLookup_dictSet_ne _ _ _ _ (by decide)]
  constructor
  · by_cases hcond : (pyTruthy (dictGetD b2 "stream" (.bool false)) &&
        !(dictHas b2 "stream_options")) = true
    · simp only [hcond, if_true]
      rw [dictLookup_dictSet_ne _ _ _ _ (by decide)]
      exact hdrop
    · simp only [Bool.not_eq_true] at hcond
      simp only [hcond, Bool.false_eq_true, if_false]
      exact hdrop
  · intro hs hns
    have hc1 : pyTruthy (dictGetD b2 "stream" (.bool false)) = true := by
      simp only [dictGetD, hstream_eq]
      simpa only [dictGetD] using hs
    have hc2 : dictHas b2 "stream_options" = false := by
      simp only [dictHas, hso_eq]
      simpa only [dictHas] using hns
    have hcond : (pyTruthy (dictGetD b2 "stream" (.bool false)) &&
        !(dictHas b2 "stream_options")) = true := by
      rw [hc1, hc2]
      rfl
    simp only [hcond, if_true]
    exact dictLookup_dictSet_self _ _ _

/-- C10 witness: the injection theorem at a streaming payload without
`stream_options`. -/
theorem C10_witness :
    dictLookup (prepare_base_payload [("stream", .bool true)]
        "openai/gpt-4o") "drop_params" = some (.bool true) ∧
    dictLookup (prepare_base_payload [("stream", .bool true)]
        "openai/gpt-4o") "stream_options"
      = some (.dict [("include_usage", .bool true)]) :=
  ⟨(C10_injected_params [("stream", .bool true)] "openai/gpt-4o").1,
   (C10_injected_params [("stream", .bool true)] "openai/gpt-4o").2 rfl rfl⟩

/-- C3 counterexample: two unclassified exceptions with different internal
texts produce different caller-facing messages, each of which contains the
exception's own text after the fixed prefix — refuting the claim that the
caller sees one fixed generic message. -/
theorem C3_counterexample :
    (map_litellm_error_to_http (.other "RuntimeError" "boom-alpha")).2.2
      = "内部服务器错误: boom-alpha" ∧
    (map_litellm_error_to_http (.other "RuntimeError" "boom-beta")).2.2
      = "内部服务器错误: boom-beta" ∧
    "内部服务器错误: boom-alpha" ≠ "内部服务器错误: boom-beta" ∧
    containsSubstr "内部服务器错误: boom-alpha" "boom-alpha" = true :=
  ⟨rfl, rfl, by decide, by decide⟩

/-- C3 (amended): an exception of a type outside every classified category
reaches the caller with its own message text: the classifier fallback
prefixes it with a fixed label, and the live service path wraps it in a
`ServiceError` whose message (the exception text verbatim) the registered
handler echoes with status 500. -/
theorem C3_unclassified_message_leak (cls m : String)
    (h : cls ∉ litellm_error_class_names) :
    map_litellm_error_to_http (.other cls m)
      = (500, "INTERNAL_ERROR", "内部服务器错误: " ++ m) ∧
    handle_service_error (wrap_chat_completion_error (.other cls m))
      = (500, [("error", .dict [("message", .str m),
                ("type", .str "CHAT_COMPLETION_ERROR"),
                ("details", .dict [])])]) := by
  simp only [litellm_error_class_names, List.mem_cons,
    List.mem_singleton, not_or] at h
  obtain ⟨n1, n2, n3, n4, n5, n6, n7, n8, n9, n10⟩ := h
  constructor
  · simp [map_litellm_error_to_http, beq_iff_eq, n1, n2, n3, n4, n5, n6,
      n7, n8, n9, n10]
  · rfl

/-- C3 witness: the leak theorem at a concrete unclassified exception. -/
theorem C3_witness :
    map_litellm_error_to_http (.other "RuntimeError" "disk quota at /srv")
      = (500, "INTERNAL_ERROR", "内部服务器错误: disk quota at /srv") ∧
    handle_service_error (wrap_chat_completion_error
        (.other "RuntimeError" "disk quota at /srv"))
      = (500, [("error", .dict [("message", .str "disk quota at /srv"),
                ("type", .str "CHAT_COMPLETION_ERROR"),
                ("details", .dict [])])]) :=
  C3_unclassified_message_leak "RuntimeError" "disk quota at /srv"
    (by decide)

end LLMProxy
